import Mathlib

/-!
Verification development for the flexiManage tunnel planner / allocator /
parameter builder (backend/deviceLogic/tunnels.js) and the sync state
machine (backend/deviceLogic/sync.js).  JavaScript functions are shallowly
embedded as Lean functions; database collections appear as explicit list
states, database reads as inputs, and database writes as returned states or
accumulated update operations.  External collaborator modules that are not
part of the sources (versioning helpers, the IKEv2 validator, the
tunnelUtils parameter deriver) enter as function parameters: every claim
settled here depends only on their results, not on their definitions.
-/

namespace FlexiManage

/-- `MAX_TUNNELS_PER_DEVICE` from tunnels.js. -/
def MAX_TUNNELS_PER_DEVICE : Nat := 8000

/-- `MAX_TUNNELS_PER_ORG` from tunnels.js. -/
def MAX_TUNNELS_PER_ORG : Nat := 32000

/-! ## Sync state machine (sync.js) -/

/-- Shallow embedding of `calculateNewSyncState` (sync.js): compare the
management hash with the device-reported hash; on equality the state is
`synced`, otherwise `syncing` when auto sync is on and `not-synced` when it
is not. -/
def calculateNewSyncState (mgmtHash deviceHash autoSync : String) : String :=
  if mgmtHash = deviceHash then "synced"
  else if autoSync = "on" then "syncing" else "not-synced"

/-- The per-device `sync` subdocument fields touched by `updateSyncState`. -/
structure SyncRec where
  state : String
  autoSync : String
  trials : Nat
  deriving DecidableEq

/-- Shallow embedding of the `$set` document built by `updateSyncState`
(sync.js): moving to `synced` also resets `sync.autoSync` to `on` and
`sync.trials` to 0; any other state writes only `sync.state`. -/
def applySyncStateUpdate (r : SyncRec) (state : String) : SyncRec :=
  if state = "synced" then { state := state, autoSync := "on", trials := 0 }
  else { r with state := state }

/-! ## PSK key generation (prepareTunnelAddJob, tunnels.js) -/

/-- The four symmetric keys stored in `tunnelKeys`. -/
structure TunnelKeys4 where
  key1 : String
  key2 : String
  key3 : String
  key4 : String
  deriving DecidableEq

/-- One IPsec security-association block as built in the `psk` branch of
`prepareTunnelAddJob` (fields `spi`, `crypto-key`, `integr-key`,
`crypto-alg`, `integr-alg`). -/
structure SaBlock where
  spi : Nat
  cryptoKey : String
  integrKey : String
  cryptoAlg : String
  integrAlg : String
  deriving DecidableEq

/-- `paramsSaAB` of the `psk` branch. -/
def paramsSaAB (sa1 : Nat) (k : TunnelKeys4) : SaBlock :=
  { spi := sa1, cryptoKey := k.key1, integrKey := k.key2
    cryptoAlg := "aes-cbc-128", integrAlg := "sha-256-128" }

/-- `paramsSaBA` of the `psk` branch. -/
def paramsSaBA (sa2 : Nat) (k : TunnelKeys4) : SaBlock :=
  { spi := sa2, cryptoKey := k.key3, integrKey := k.key4
    cryptoAlg := "aes-cbc-128", integrAlg := "sha-256-128" }

/-- The four SA blocks placed into `paramsDeviceA.ipsec` and
`paramsDeviceB.ipsec`. -/
structure PskIpsecParams where
  localSaA : SaBlock
  remoteSaA : SaBlock
  localSaB : SaBlock
  remoteSaB : SaBlock
  deriving DecidableEq

/-- Shallow embedding of the `psk` branch of `prepareTunnelAddJob`
(tunnels.js): when the tunnel record holds no `tunnelKeys`, the freshly
generated keys `gen` (the result of the external `generateRandomKeys`) are
persisted on the record and used; otherwise the stored keys are reused.
The device-B side swaps the SA `spi` assignment for agent major
version < 4 (legacy quirk preserved by the source).  Returns the updated
stored keys and the SA blocks of both devices. -/
def buildPskParams (gen : TunnelKeys4) (majorAgentB : Nat) (sa1 sa2 : Nat)
    (stored : Option TunnelKeys4) : Option TunnelKeys4 × PskIpsecParams :=
  let keys := match stored with
    | none => gen
    | some k => k
  let saAB := paramsSaAB sa1 keys
  let saBA := paramsSaBA sa2 keys
  let params : PskIpsecParams :=
    if majorAgentB < 4 then
      { localSaA := saAB, remoteSaA := saBA
        localSaB := { saAB with spi := sa2 }, remoteSaB := { saBA with spi := sa1 } }
    else
      { localSaA := saAB, remoteSaA := saBA
        localSaB := saBA, remoteSaB := saAB }
  (some keys, params)

/-! ## Effective MTU computation (prepareTunnelParams, tunnels.js)

Integers model the JavaScript numbers; the value 0 stands for a falsy
(`undefined`, `''` or `0`) interface or requested MTU, exactly matching the
`||`/`!mtu` tests of the source. -/

/-- The MTU-related outputs of `prepareTunnelParams` for a device-to-device
tunnel: the `mtu` field written into both `loopback-iface` blocks and the
`tcp-mss-clamp` value (absent when the user set `mssClamp` to `"no"`). -/
structure MtuParams where
  loopbackMtuA : Int
  loopbackMtuB : Int
  tcpMssClampA : Option Int
  tcpMssClampB : Option Int
  deriving DecidableEq

/-- Shallow embedding of the MTU computation of `prepareTunnelParams`
(tunnels.js): `packetHeaderSize` is 0 for `none` encryption and 150
otherwise; `minMtu` starts from the smaller endpoint interface MTU minus
the header; a missing requested MTU falls back to the positive global
default and otherwise to `minMtu`; the requested-or-default value is
clamped to `[500, 1500]` and written into both loopback blocks, while
`min(clamped, minMtu)` feeds the TCP MSS clamp. -/
def prepareTunnelMtu (encryptionMethod : String) (ifcAMtu ifcBMtu : Int)
    (requestedMtu globalTunnelMtu tcpClampingHeaderSize : Int)
    (mssClamp : String) : MtuParams :=
  let packetHeaderSize : Int := if encryptionMethod = "none" then 0 else 150
  let minMtu0 : Int :=
    min (if ifcAMtu = 0 then 1500 else ifcAMtu)
      (if ifcBMtu = 0 then 1500 else ifcBMtu) - packetHeaderSize
  let mtu0 : Int :=
    if requestedMtu = 0 then
      (if globalTunnelMtu > 0 then globalTunnelMtu else minMtu0)
    else requestedMtu
  let mtu1 : Int := min (max mtu0 500) 1500
  let minMtu1 : Int := min mtu1 minMtu0
  { loopbackMtuA := mtu1
    loopbackMtuB := mtu1
    tcpMssClampA :=
      if mssClamp ≠ "no" then some (minMtu1 - tcpClampingHeaderSize) else none
    tcpMssClampB :=
      if mssClamp ≠ "no" then some (minMtu1 - tcpClampingHeaderSize) else none }

/-- Modelled from the spec: the claimed effective MTU, namely
`min(requested-or-default, both endpoint interface MTUs minus the
protocol-overhead constant)` clamped to `[500, 1500]`.  Used only to
compare the specification's formula with the source computation. -/
def specEffectiveMtu (encryptionMethod : String)
    (ifcAMtu ifcBMtu requestedOrDefault : Int) : Int :=
  let overhead : Int := if encryptionMethod = "none" then 0 else 150
  min 1500 (max 500 (min requestedOrDefault (min ifcAMtu ifcBMtu - overhead)))

/-! ## Tunnel number allocation (generateTunnelPromise, tunnels.js) -/

/-- The per-organization allocation state: the `num`s of `isActive=false`
tunnel rows of the organization (in the order the driver would find them)
and the organization's `tunnelids` counter document (`none` when the
document does not exist yet). -/
structure AllocDb where
  inactiveNums : List Nat
  nextAvailID : Option Nat
  deriving DecidableEq

/-- Shallow embedding of the awaited
`tunnelIDsModel.findOneAndUpdate({org, nextAvailID: {$gte:0, $lt:32000}},
{$inc:{nextAvailID:1}}, {new:true, upsert:true})` call.  When the counter
document exists below the cap the post-increment value is returned; when it
is at the cap the query misses and the upsert insert violates the unique
`org` index (duplicate-key error, code 11000); a concurrent upsert race can
produce the same error, modelled by the `raceDuplicate` input. -/
def tunnelIdIncrement (db : AllocDb) (raceDuplicate : Bool) :
    Except Nat (Nat × AllocDb) :=
  if raceDuplicate then .error 11000
  else
    match db.nextAvailID with
    | none => .ok (1, { db with nextAvailID := some 1 })
    | some v =>
      if v < MAX_TUNNELS_PER_ORG then .ok (v + 1, { db with nextAvailID := some (v + 1) })
      else .error 11000

/-- Result of one allocation attempt. -/
inductive AllocOutcome where
  | reused (num : Nat)
  | fresh (num : Nat)
  | failure (msg : String)
  deriving DecidableEq

/-- Shallow embedding of the tunnel-number acquisition of
`generateTunnelPromise` (tunnels.js):

* first `tunnelsModel.findOneAndUpdate({isActive:false, org}, {isActive:true})`
  reuses the `num` of an inactive row when one exists;
* otherwise the counter increment above runs; a falsy post-increment value
  throws `"Failed to get a new tunnel number"`;
* on a duplicate-key error (`err.code === 11000`) the source issues the
  increment again **without `await`**: the mongoose query object is never
  executed and its `nextAvailID` property is `undefined`, so the
  `!idResp.nextAvailID` test fires and
  `"Failed to get a new tunnel number"` is thrown without the retry result
  ever being observed.  The model therefore returns the failure message
  with the database unchanged in that branch;
* any other error code rethrows with the concatenated message. -/
def allocateTunnelNum (db : AllocDb) (raceDuplicate : Bool) :
    AllocOutcome × AllocDb :=
  match db.inactiveNums with
  | n :: rest => (.reused n, { db with inactiveNums := rest })
  | [] =>
    match tunnelIdIncrement db raceDuplicate with
    | .ok (n, db2) =>
      if n = 0 then (.failure "Failed to get a new tunnel number", db2)
      else (.fresh n, db2)
    | .error code =>
      if code = 11000 then
        (.failure "Failed to get a new tunnel number", db)
      else
        (.failure ("Failed to get a new tunnel number: code " ++ toString code), db)

/-! ## Allocation rollback on build failure (generateTunnelPromise, tunnels.js) -/

/-- A row of the `tunnels` collection as far as the rollback path needs
it. -/
structure TunnelRow where
  num : Nat
  isActive : Bool
  deriving DecidableEq

/-- `tunnelsModel.findOneAndUpdate({num, isActive:true, org}, {isActive:false})`:
deactivate the first active row carrying `num`. -/
def deactivateNum : List TunnelRow → Nat → List TunnelRow
  | [], _ => []
  | r :: rs, n =>
    if r.num = n ∧ r.isActive then { r with isActive := false } :: rs
    else r :: deactivateNum rs n

/-- Character-list prefix test (helper for the substring test below). -/
def charsStartWith : List Char → List Char → Bool
  | [], _ => true
  | _ :: _, [] => false
  | p :: ps, c :: cs => p = c && charsStartWith ps cs

/-- Character-list substring occurrence (helper for `containsPending`). -/
def charsContain (pat : List Char) : List Char → Bool
  | [] => charsStartWith pat []
  | c :: cs => charsStartWith pat (c :: cs) || charsContain pat cs

/-- JavaScript `message.includes('pending')`. -/
def containsPending (msg : String) : Bool :=
  charsContain "pending".data msg.data

/-- Shallow embedding of the `catch` block of `generateTunnelPromise`
(tunnels.js): when a tunnel number was allocated and the failure message
does not include `'pending'`, the allocated `num` is deactivated before the
error is rethrown with the same message; otherwise the rows are left
untouched. -/
def generateTunnelCatch (db : List TunnelRow) (tunnelnum : Option Nat)
    (errMsg : String) : List TunnelRow × String :=
  match tunnelnum with
  | some n =>
    if ¬ containsPending errMsg then (deactivateNum db n, errMsg)
    else (db, errMsg)
  | none => (db, errMsg)

/-! ## Tunnel deletion (delTunnel, tunnels.js) -/

/-- One entry of a device's `staticroutes` array, reduced to the fields
`delTunnel` inspects: the `gateway` and the `via.tunnelId` of each
conditional entry (`none` when the chain `c?.via?.tunnelId` is missing). -/
structure StaticRoute where
  gateway : String
  conditionTunnelIds : List (Option Nat)
  deriving DecidableEq

/-- The bulk `updateOne` document pushed by `delTunnel` for the tunnel
being removed. -/
structure TunnelUpdateOp where
  tunnelId : Nat
  isActive : Bool
  deviceAconf : Bool
  deviceBconf : Bool
  pendingTunnelModification : Bool
  status : String
  tunnelKeys : Option TunnelKeys4
  deriving DecidableEq

/-- The deactivation update `delTunnel` records. -/
def deactivationOp (tid : Nat) : TunnelUpdateOp :=
  { tunnelId := tid, isActive := false, deviceAconf := false, deviceBconf := false
    pendingTunnelModification := false, status := "down", tunnelKeys := none }

/-- Error message for a direct static-route reference. -/
def staticRouteMsg : String :=
  "Some static routes defined via removed tunnel, please remove static routes first"

/-- Error message for a conditional static-route reference. -/
def conditionalRouteMsg : String :=
  "A conditional static routes defined via removed tunnel, please remove static routes first"

/-- The per-route check of `delTunnel`'s `forEach`: a route whose gateway
is one of the tunnel's derived loopback addresses throws the direct
message; a route with a condition whose `via.tunnelId` equals the tunnel
`num` throws the conditional message. -/
def routeBlocks (ip1 ip2 : String) (num : Nat) (s : StaticRoute) : Option String :=
  if s.gateway = ip1 ∨ s.gateway = ip2 then some staticRouteMsg
  else if s.conditionTunnelIds.any (fun c => c = some num) then some conditionalRouteMsg
  else none

/-- The inputs `delTunnel` reads from the tunnel record and its populated
endpoint devices. -/
structure DelTunnelInput where
  tunnelId : Nat
  num : Nat
  isPending : Bool
  routesA : List StaticRoute
  routesB : List StaticRoute
  deriving DecidableEq

/-- Shallow embedding of `delTunnel` (tunnels.js).  `ip1`/`ip2` are the
loopback addresses produced by the external `generateTunnelParams(num,
org.tunnelRange)` (utils/tunnelUtils, outside these sources); the claims
settled here depend only on those two values.  The function scans the
static routes of both endpoint devices and rejects when one references the
tunnel, otherwise it records the deactivation update; for a pending tunnel
it throws `'Tunnel was in pending state'` only after recording the
update.  Returns the accumulated update operations together with the
thrown error message, if any. -/
def delTunnelModel (ip1 ip2 : String) (t : DelTunnelInput)
    (updateOps : List TunnelUpdateOp) : List TunnelUpdateOp × Option String :=
  match (t.routesA ++ t.routesB).findSome? (routeBlocks ip1 ip2 t.num) with
  | some msg => (updateOps, some msg)
  | none =>
    let ops2 := updateOps ++ [deactivationOp t.tunnelId]
    if t.isPending then (ops2, some "Tunnel was in pending state")
    else (ops2, none)

/-! ## Topology planner (handleTunnels, tunnels.js)

The double device loop, the per-pair gates, the interface/label cross
product, the duplicate-tunnel and capacity checks, the reason bookkeeping
and the emitted tunnel-creation intents are embedded below.  The version
helpers (`routerVersionsCompatible`, `getMajorVersion`) and the IKEv2
validator live in modules outside these sources and enter as the
`ExternalFns` parameter; the seeded `tunnelsPerDevice` counters and the
`tunnelExists` index (computed from a database query) are inputs. -/

/-- An entry of a device's `pathlabels` array. -/
structure PathLabel where
  id : String
  labelType : String
  deriving DecidableEq

/-- One `interfaces[]` entry of a device document. -/
structure NetIfc where
  id : Nat
  name : String
  isAssigned : Bool
  ifcType : String
  pathlabels : List PathLabel
  deriving DecidableEq

/-- A device document, reduced to the fields `handleTunnels` reads. -/
structure Device where
  id : Nat
  hostname : String
  routerVersion : String
  agentVersion : String
  interfaces : List NetIfc
  deriving DecidableEq

/-- Fallback device for out-of-range indexing (never reached for in-range
loop indices). -/
def defaultDevice : Device :=
  { id := 0, hostname := "", routerVersion := "", agentVersion := "", interfaces := [] }

instance : Inhabited Device := ⟨defaultDevice⟩

/-- A WAN interface annotated with its path-label set, as produced by
`getInterfacesWithPathLabels` (tunnels.js): DIA labels map to `null`
(here `none`), kept in the set. -/
structure AnnotatedIfc where
  id : Nat
  name : String
  labelsSet : List (Option String)
  deriving DecidableEq

/-- Shallow embedding of `getInterfacesWithPathLabels` (tunnels.js): keep
assigned WAN interfaces and annotate each with the set of its path-label
ids, mapping DIA labels to `null`. -/
def getInterfacesWithPathLabels (d : Device) : List AnnotatedIfc :=
  (d.interfaces.filter (fun i => i.isAssigned ∧ i.ifcType = "WAN")).map
    (fun i =>
      { id := i.id, name := i.name
        labelsSet :=
          (i.pathlabels.map
            (fun l => if l.labelType ≠ "DIA" then some l.id else none)).dedup })

/-- Shallow embedding of `intersectIfcLabels` (tunnels.js): collect the
labels of interface A that are truthy (not the DIA `null`) and present in
interface B's set. -/
def intersectIfcLabels (a b : List (Option String)) : List String :=
  a.filterMap (fun l =>
    match l with
    | some s => if some s ∈ b then some s else none
    | none => none)

/-- External helpers `handleTunnels` calls: `routerVersionsCompatible` and
`getMajorVersion` from `versioning.js` and `validateIKEv2` from
`IKEv2.js`, none of which is part of these sources. -/
structure ExternalFns where
  routerCompat : String → String → Bool
  majorAgent : String → Nat
  ikev2Valid : Device → Bool × String

/-- A tunnel-creation intent: the arguments of one
`generateTunnelPromise(userName, org, label, deviceA, deviceB, wanIfcA,
wanIfcB, ...)` push. -/
structure TunnelIntent where
  label : Option String
  deviceA : Nat
  deviceB : Nat
  ifcA : Nat
  ifcB : Nat
  deriving DecidableEq

/-- The mutable state threaded through `handleTunnels`: the per-device
running tunnel counters, the existing-tunnel index keyed
`ifcA:ifcB:label`, the organization-wide reason set, the per-device job
reason sets and the emitted intents. -/
structure PlanState where
  tunnelsPerDevice : List (Nat × Nat)
  tunnelExists : List (Nat × Nat × String)
  reasons : List String
  deviceReasons : List (Nat × String)
  intents : List TunnelIntent
  deriving DecidableEq

/-- `tunnelsPerDevice[d] ?? 0`. -/
def PlanState.count (st : PlanState) (d : Nat) : Nat :=
  match st.tunnelsPerDevice.find? (fun p => p.1 = d) with
  | some p => p.2
  | none => 0

/-- `tunnelsPerDevice[d] = (tunnelsPerDevice[d] ?? 0) + 1`. -/
def bumpEntry : List (Nat × Nat) → Nat → List (Nat × Nat)
  | [], d => [(d, 1)]
  | p :: ps, d => if p.1 = d then (p.1, p.2 + 1) :: ps else p :: bumpEntry ps d

/-- Increment a device's running tunnel counter. -/
def PlanState.bump (st : PlanState) (d : Nat) : PlanState :=
  { st with tunnelsPerDevice := bumpEntry st.tunnelsPerDevice d }

/-- JavaScript `Set.add`: append when absent. -/
def addIfAbsent {α : Type} [DecidableEq α] (l : List α) (a : α) : List α :=
  if a ∈ l then l else l ++ [a]

/-- `reasons.add(s)`. -/
def PlanState.addReason (st : PlanState) (s : String) : PlanState :=
  { st with reasons := addIfAbsent st.reasons s }

/-- `tunnelsJobs[d].reasons.add(s)`. -/
def PlanState.addDeviceReason (st : PlanState) (d : Nat) (s : String) : PlanState :=
  { st with deviceReasons := addIfAbsent st.deviceReasons (d, s) }

/-- `tasks.push(generateTunnelPromise(...))`. -/
def PlanState.pushIntent (st : PlanState) (i : TunnelIntent) : PlanState :=
  { st with intents := st.intents ++ [i] }

/-- The `tunnelExists[key] || tunnelExists[key2]` duplicate test, with the
key in both interface orderings (`''` encodes the null label). -/
def PlanState.existsTunnel (st : PlanState) (ifcA ifcB : Nat) (label : String) : Bool :=
  st.tunnelExists.contains (ifcA, ifcB, label) || st.tunnelExists.contains (ifcB, ifcA, label)

/-- The capacity-exceeded reason attached to a device's job. -/
def capacityDeviceMsg : String :=
  "Exceeded limit of " ++ toString MAX_TUNNELS_PER_DEVICE ++ " tunnels per device"

/-- The organization-wide capacity-exceeded reason. -/
def capacityGlobalMsg : String := capacityDeviceMsg ++ "."

/-- The shared tail of the duplicate/capacity/emit chain of both label
modes in `handleTunnels`: already-exists check, then the per-device
capacity checks, then counter bumps and the intent push.  The
`buggedDeviceBReason` flag selects which job records the capacity reason
when device B is over the limit: the labelled branch of the source (lines
327-333) writes it to `tunnelsJobs[deviceA._id]` while the unlabelled
branch (lines 262-267) writes it to `tunnelsJobs[deviceB._id]`. -/
def emitChain (dA dB : Device) (ifcA ifcB : AnnotatedIfc) (label : Option String)
    (keyLabel : String) (buggedDeviceBReason : Bool) (st : PlanState) : PlanState :=
  if st.existsTunnel ifcA.id ifcB.id keyLabel then
    (((st.addReason "Some tunnels exist already.").addDeviceReason dA.id
        ("Tunnel with " ++ dB.hostname ++ " on " ++ ifcB.name ++ " exists already")).addDeviceReason
      dB.id ("Tunnel with " ++ dA.hostname ++ " on " ++ ifcA.name ++ " exists already"))
  else if st.count dA.id > MAX_TUNNELS_PER_DEVICE - 1 then
    ((st.addReason capacityGlobalMsg).addDeviceReason dA.id capacityDeviceMsg)
  else if st.count dB.id > MAX_TUNNELS_PER_DEVICE - 1 then
    ((st.addReason capacityGlobalMsg).addDeviceReason
      (if buggedDeviceBReason then dA.id else dB.id) capacityDeviceMsg)
  else
    (((st.bump dA.id).bump dB.id).pushIntent
      { label := label, deviceA := dA.id, deviceB := dB.id, ifcA := ifcA.id, ifcB := ifcB.id })

/-- One iteration of the `for (const label of labelsIntersection)` loop
(tunnels.js lines 298-346).  The accumulator carries the plan state and
the `isFoundInterfacesWithCommonLabels` flag. -/
def processLabel (specified : List String) (createForAll : Bool)
    (dA dB : Device) (ifcA ifcB : AnnotatedIfc)
    (acc : PlanState × Bool) (label : String) : PlanState × Bool :=
  if ¬ createForAll ∧ label ∉ specified then acc
  else
    (emitChain dA dB ifcA ifcB (some label) label true acc.1, true)

/-- One iteration of the interface cross-product loop of `handleTunnels`
(lines 230-348): the no-label mode creates a tunnel only when both
interfaces carry no labels, otherwise it records the path-label reasons;
the label mode folds over the label intersection. -/
def processCombo (specified : List String) (createForAll : Bool) (dA dB : Device)
    (acc : PlanState × Bool) (ifcs : AnnotatedIfc × AnnotatedIfc) : PlanState × Bool :=
  let ifcA := ifcs.1
  let ifcB := ifcs.2
  if specified.isEmpty then
    if ifcA.labelsSet.length = 0 ∧ ifcB.labelsSet.length = 0 then
      (emitChain dA dB ifcA ifcB none "" false acc.1, true)
    else
      let st1 := acc.1.addReason
        "No Path Labels specified but some devices have interfaces with Path Labels."
      let st2 :=
        if ifcA.labelsSet.length > 0 then
          st1.addDeviceReason dA.id ("Path Labels specified on interface " ++ ifcA.name)
        else st1
      let st3 :=
        if ifcB.labelsSet.length > 0 then
          st2.addDeviceReason dB.id ("Path Labels specified on interface " ++ ifcB.name)
        else st2
      (st3, true)
  else
    (intersectIfcLabels ifcA.labelsSet ifcB.labelsSet).foldl
      (processLabel specified createForAll dA dB ifcA ifcB) acc

/-- The per-device-pair body of `handleTunnels` (lines 142-376): the
router-version gate, the `none`/`ikev2` encryption gates, the interface
cross product, and the aggregate no-intersection / no-WAN reasons. -/
def processPair (ext : ExternalFns) (encryptionMethod : String)
    (specified : List String) (dA dB : Device) (st : PlanState) : PlanState :=
  if ¬ ext.routerCompat dA.routerVersion dB.routerVersion then
    (((st.addReason "Router version mismatch for some devices.").addDeviceReason dB.id
        ("Router version mismatch with " ++ dA.hostname)).addDeviceReason dA.id
      ("Router version mismatch with " ++ dB.hostname))
  else
    let noneGateFails :=
      encryptionMethod = "none" ∧
        (ext.majorAgent dA.agentVersion < 4 ∨ ext.majorAgent dB.agentVersion < 4)
    if noneGateFails then
      let st1 :=
        if ext.majorAgent dA.agentVersion < 4 then
          st.addReason "None encryption method not supported on some of devices."
        else st
      if ext.majorAgent dB.agentVersion < 4 then
        st1.addReason "None encryption method not supported on some of devices."
      else st1
    else
      let ikev2GateFails :=
        encryptionMethod = "ikev2" ∧
          (¬ (ext.ikev2Valid dA).1 ∨ ¬ (ext.ikev2Valid dB).1)
      if ikev2GateFails then
        let st1 :=
          if ¬ (ext.ikev2Valid dA).1 then
            ((st.addReason ((ext.ikev2Valid dA).2 ++ " on some of devices.")).addDeviceReason
              dA.id (ext.ikev2Valid dA).2)
          else st
        if ¬ (ext.ikev2Valid dB).1 then
          ((st1.addReason ((ext.ikev2Valid dB).2 ++ " on some of devices.")).addDeviceReason
            dB.id (ext.ikev2Valid dB).2)
        else st1
      else
        let deviceAIntfs := getInterfacesWithPathLabels dA
        let deviceBIntfs := getInterfacesWithPathLabels dB
        if deviceAIntfs.length ≠ 0 ∧ deviceBIntfs.length ≠ 0 then
          let createForAll := "FFFFFF" ∈ specified
          let combos := deviceAIntfs.flatMap (fun ia => deviceBIntfs.map (fun ib => (ia, ib)))
          let res := combos.foldl (processCombo specified createForAll dA dB) (st, false)
          if ¬ res.2 then
            (((res.1.addReason
                "Some devices have interfaces without specified Path Labels.").addDeviceReason
              dA.id ("No Path Labels intersection with " ++ dB.hostname)).addDeviceReason
              dB.id ("No Path Labels intersection with " ++ dA.hostname))
          else res.1
        else
          let st1 := st.addReason "Some devices have no valid WAN interfaces."
          let st2 :=
            if deviceAIntfs.length = 0 then st1.addDeviceReason dA.id "No valid WAN interfaces"
            else st1
          if deviceBIntfs.length = 0 then st2.addDeviceReason dB.id "No valid WAN interfaces"
          else st2

/-- The `(idxA, idxB)` device-pair enumeration of `handleTunnels` (lines
125-148): hub-and-spoke runs the outer loop on the hub index only and the
inner loop over every device, skipping `idxA === idxB`; full mesh runs the
outer loop over all indices below `devicesLen - 1` and the inner loop from
`idxA + 1`. -/
def pairIndices (isHubAndSpoke : Bool) (hubIdx devicesLen : Nat) : List (Nat × Nat) :=
  let aLoopStart := if isHubAndSpoke then hubIdx else 0
  let aLoopStop := if isHubAndSpoke then hubIdx + 1 else devicesLen - 1
  (List.range' aLoopStart (aLoopStop - aLoopStart)).flatMap fun idxA =>
    let bLoopStart := if isHubAndSpoke then 0 else idxA + 1
    ((List.range' bLoopStart (devicesLen - bLoopStart)).filter
      (fun idxB => idxB ≠ idxA)).map (fun idxB => (idxA, idxB))

/-- Shallow embedding of `handleTunnels` (tunnels.js): reject unsupported
key-exchange methods, then fold the per-pair body over the enumerated
device pairs.  The seeded counters, index and reason sets come in through
`st0`. -/
def handleTunnelsModel (ext : ExternalFns) (encryptionMethod : String)
    (devices : List Device) (specified : List String)
    (isHubAndSpoke : Bool) (hubIdx : Nat) (st0 : PlanState) :
    Except String PlanState :=
  if encryptionMethod ∉ ["none", "ikev2", "psk"] then
    .error "Not supported key exchange method"
  else
    .ok ((pairIndices isHubAndSpoke hubIdx devices.length).foldl
      (fun st p => processPair ext encryptionMethod specified
        (devices.getD p.1 defaultDevice) (devices.getD p.2 defaultDevice) st) st0)

/-- The empty plan state (no seeded tunnels, no reasons, no intents). -/
def emptyPlanState : PlanState :=
  { tunnelsPerDevice := [], tunnelExists := [], reasons := [], deviceReasons := []
    intents := [] }


/-- Trivial instantiations of the external helpers, for concrete
evaluations. -/
def extTrivial : ExternalFns :=
  { routerCompat := fun _ _ => true, majorAgent := fun _ => 6
    ikev2Valid := fun _ => (true, "") }

/-- A device with one assigned, unlabelled WAN interface. -/
def mkWanDevice (did ifcId : Nat) (host : String) : Device :=
  { id := did, hostname := host, routerVersion := "5.3.7", agentVersion := "6.3.0"
    interfaces :=
      [{ id := ifcId, name := "eth0", isAssigned := true, ifcType := "WAN",
         pathlabels := [] }] }

/-- Four devices; index 1 is the hub of the concrete hub-and-spoke run. -/
def devsHub : List Device :=
  [mkWanDevice 10 11 "siteA", mkWanDevice 20 21 "hub",
    mkWanDevice 30 31 "siteB", mkWanDevice 40 41 "siteC"]

/-- The planner state of the concrete hub-and-spoke run. -/
def hubRunState : PlanState :=
  match handleTunnelsModel extTrivial "psk" devsHub [] true 1 emptyPlanState with
  | .ok st => st
  | .error _ => emptyPlanState

/-! ## C4: capacity enforcement -/

/-- A `Tunnel`-typed path label. -/
def labelL1 : PathLabel := { id := "L1", labelType := "Tunnel" }

/-- Device A of the capacity run: one labelled WAN interface, id 1. -/
def devCapA : Device :=
  { id := 1, hostname := "siteA", routerVersion := "5.3.7", agentVersion := "6.3.0"
    interfaces :=
      [{ id := 10, name := "eth0", isAssigned := true, ifcType := "WAN",
         pathlabels := [labelL1] }] }

/-- Device B of the capacity run: one labelled WAN interface, id 2. -/
def devCapB : Device :=
  { id := 2, hostname := "siteB", routerVersion := "5.3.7", agentVersion := "6.3.0"
    interfaces :=
      [{ id := 20, name := "eth0", isAssigned := true, ifcType := "WAN",
         pathlabels := [labelL1] }] }

/-- Seeded planner state: device 2 already runs `MAX_TUNNELS_PER_DEVICE`
(8000) tunnels. -/
def capSeedState : PlanState :=
  { tunnelsPerDevice := [(2, MAX_TUNNELS_PER_DEVICE)], tunnelExists := []
    reasons := [], deviceReasons := [], intents := [] }

/-! ## Tunnel-add completion (completeTunnelAdd, tunnels.js)

`completeTunnelAdd` builds one `updateOne` per `{org, num, target}` triple
with filter `{num, org, [target]: false}` and update `{[target]: true}`,
`upsert: false`, and `bulkUpdate` executes them in order.  `updateOne`
modifies the first matching document. -/

/-- The confirmation flag a completion triple targets. -/
inductive ConfTarget where
  | deviceAconf
  | deviceBconf
  deriving DecidableEq

/-- A `tunnels` document reduced to the fields the completion touches. -/
structure ConfRow where
  org : Nat
  num : Nat
  confA : Bool
  confB : Bool
  deriving DecidableEq

/-- Read the targeted confirmation flag. -/
def ConfRow.getConf (r : ConfRow) : ConfTarget → Bool
  | .deviceAconf => r.confA
  | .deviceBconf => r.confB

/-- Set the targeted confirmation flag to `true`. -/
def ConfRow.setConf (r : ConfRow) : ConfTarget → ConfRow
  | .deviceAconf => { r with confA := true }
  | .deviceBconf => { r with confB := true }

/-- A `{org, num, target}` triple from the job's completion data. -/
structure ConfTriple where
  org : Nat
  num : Nat
  target : ConfTarget
  deriving DecidableEq

/-- The filter `{num, org, [target]: false}`. -/
def matchesConfFilter (t : ConfTriple) (r : ConfRow) : Prop :=
  r.org = t.org ∧ r.num = t.num ∧ r.getConf t.target = false

instance (t : ConfTriple) (r : ConfRow) : Decidable (matchesConfFilter t r) := by
  unfold matchesConfFilter; infer_instance

/-- `updateOne` with the filter and update of `completeTunnelAdd`: set the
target flag of the first matching document, `upsert: false`. -/
def updateOneConf : List ConfRow → ConfTriple → List ConfRow
  | [], _ => []
  | r :: rs, t =>
    if matchesConfFilter t r then r.setConf t.target :: rs
    else r :: updateOneConf rs t

/-- Shallow embedding of `completeTunnelAdd` followed by `bulkUpdate`
(tunnels.js): execute the per-triple updates in order. -/
def completeTunnelAddModel (triples : List ConfTriple) (db : List ConfRow) : List ConfRow :=
  triples.foldl updateOneConf db

/-- The `(org, num)` key of a row. -/
def ConfRow.key (r : ConfRow) : Nat × Nat := (r.org, r.num)

/-- Per-row monotonicity order: keys are preserved and confirmation flags
only move from `false` to `true`. -/
def confRowLe (r s : ConfRow) : Prop :=
  r.org = s.org ∧ r.num = s.num ∧
    (r.confA = true → s.confA = true) ∧ (r.confB = true → s.confB = true)

/-! ## Helper lemmas -/

/-- `routeBlocks` can only produce the two deletion-guard messages. -/
lemma routeBlocks_shape {ip1 ip2 : String} {n : Nat} {s : StaticRoute} {m : String}
    (h : routeBlocks ip1 ip2 n s = some m) :
    m = staticRouteMsg ∨ m = conditionalRouteMsg := by
  unfold routeBlocks at h
  split_ifs at h <;> simp_all

/-- A route that references the tunnel makes `routeBlocks` fire. -/
lemma routeBlocks_isSome_of_ref {ip1 ip2 : String} {n : Nat} {s : StaticRoute}
    (h : s.gateway = ip1 ∨ s.gateway = ip2 ∨ ∃ c ∈ s.conditionTunnelIds, c = some n) :
    (routeBlocks ip1 ip2 n s).isSome := by
  unfold routeBlocks
  rcases h with h | h | h
  · simp [h]
  · simp [h]
  · split_ifs with h1 h2
    · simp
    · simp
    · exfalso
      apply h2
      rw [List.any_eq_true]
      obtain ⟨c, hc, hcn⟩ := h
      exact ⟨c, hc, by simp [hcn]⟩

/-- When some element of the list fires, `findSome?` yields one of the two
deletion-guard messages. -/
lemma findSome?_routeBlocks {ip1 ip2 : String} {n : Nat} :
    ∀ l : List StaticRoute, (∃ s ∈ l, (routeBlocks ip1 ip2 n s).isSome) →
      ∃ m, l.findSome? (routeBlocks ip1 ip2 n) = some m ∧
        (m = staticRouteMsg ∨ m = conditionalRouteMsg)
  | [], h => by simp at h
  | s :: ss, h => by
    cases hv : routeBlocks ip1 ip2 n s with
    | some m =>
      exact ⟨m, by simp [List.findSome?, hv], routeBlocks_shape hv⟩
    | none =>
      obtain ⟨s2, hs2, hsome⟩ := h
      rcases List.mem_cons.mp hs2 with rfl | hs2
      · rw [hv] at hsome; simp at hsome
      · obtain ⟨m, hm, hshape⟩ := findSome?_routeBlocks ss ⟨s2, hs2, hsome⟩
        exact ⟨m, by simp [List.findSome?, hv, hm], hshape⟩

/-- `findSome?` misses when no element fires. -/
lemma findSome?_none_of_all_none {α β : Type} (f : α → Option β) :
    ∀ l : List α, (∀ a ∈ l, f a = none) → l.findSome? f = none
  | [], _ => rfl
  | a :: l, h => by
    have ha := h a (List.mem_cons_self a l)
    have hrest := findSome?_none_of_all_none f l (fun x hx => h x (List.mem_cons_of_mem a hx))
    simp [List.findSome?, ha, hrest]

/-- If some active row carries `num`, `deactivateNum` leaves an inactive
row with that `num` behind. -/
lemma deactivateNum_inactive_mem :
    ∀ (db : List TunnelRow) (n : Nat), (∃ r ∈ db, r.num = n ∧ r.isActive = true) →
      ({ num := n, isActive := false } : TunnelRow) ∈ deactivateNum db n
  | [], n, h => by simp at h
  | r :: rs, n, h => by
    unfold deactivateNum
    split_ifs with hc
    · have : ({ r with isActive := false } : TunnelRow) = { num := n, isActive := false } := by
        cases r
        simp_all
      rw [this]
      exact List.mem_cons_self _ _
    · obtain ⟨r2, hr2, hnum, hact⟩ := h
      rcases List.mem_cons.mp hr2 with rfl | hr2
      · exact absurd ⟨hnum, by simp [hact]⟩ hc
      · exact List.mem_cons_of_mem _ (deactivateNum_inactive_mem rs n ⟨r2, hr2, hnum, hact⟩)

/-! ## Claim theorems -/

/-- C1: the claim states that on a duplicate-key race error the counter
increment is retried exactly once and its result used before surfacing
`'Failed to get a new tunnel number'`.  The source issues the retry
without `await` (tunnels.js line 1075), so the mongoose query's
`nextAvailID` property is `undefined` and the failure is surfaced without
the retry's result ever being used: with no inactive tunnel to reuse, a
counter at 5 (far below the 32000 cap) and a duplicate-key error on the
first increment, the allocation fails — even though the very same
increment, executed properly, succeeds and returns 6. -/
theorem allocate_retry_result_unused :
    allocateTunnelNum { inactiveNums := [], nextAvailID := some 5 } true =
      (.failure "Failed to get a new tunnel number",
        { inactiveNums := [], nextAvailID := some 5 }) ∧
    tunnelIdIncrement { inactiveNums := [], nextAvailID := some 5 } false =
      .ok (6, { inactiveNums := [], nextAvailID := some 6 }) := by
  constructor <;> rfl

/-- C2: whenever a tunnel number was allocated and the build fails, the
catch block of `generateTunnelPromise` deactivates the allocated `num`
before rethrowing the same message — unless the failure message contains
`'pending'`, in which case the rows are left untouched and the tunnel
keeps its number. -/
theorem generateTunnelCatch_rollback (db : List TunnelRow) (n : Nat) (msg : String)
    (hrow : ∃ r ∈ db, r.num = n ∧ r.isActive = true) :
    (containsPending msg = false →
      generateTunnelCatch db (some n) msg = (deactivateNum db n, msg) ∧
        ({ num := n, isActive := false } : TunnelRow) ∈
          (generateTunnelCatch db (some n) msg).1) ∧
    (containsPending msg = true → generateTunnelCatch db (some n) msg = (db, msg)) := by
  constructor
  · intro hmsg
    have heq : generateTunnelCatch db (some n) msg = (deactivateNum db n, msg) := by
      unfold generateTunnelCatch
      simp [hmsg]
    exact ⟨heq, by rw [heq]; exact deactivateNum_inactive_mem db n hrow⟩
  · intro hmsg
    unfold generateTunnelCatch
    simp [hmsg]

/-- Witness for C2: a concrete build failure (`'Source IP address is
empty'`) rolls the allocated `num = 7` back to inactive, while the pending
failure message leaves the row active. -/
theorem generateTunnelCatch_rollback_witness :
    generateTunnelCatch [{ num := 7, isActive := true }] (some 7)
        "Source IP address is empty" =
      ([{ num := 7, isActive := false }], "Source IP address is empty") ∧
    generateTunnelCatch [{ num := 7, isActive := true }] (some 7)
        "Tunnel #7 set as pending - interface has no IP" =
      ([{ num := 7, isActive := true }], "Tunnel #7 set as pending - interface has no IP") := by
  have hrow : ∃ r ∈ [({ num := 7, isActive := true } : TunnelRow)],
      r.num = 7 ∧ r.isActive = true := by decide
  constructor
  · exact ((generateTunnelCatch_rollback _ 7 _ hrow).1 (by decide)).1.trans (by decide)
  · exact (generateTunnelCatch_rollback _ 7 _ hrow).2 (by decide)

/-- C5 counterexample: the claim says the MTU placed in the loopback
configuration equals `min(requested, interface MTUs - 150)` clamped to
`[500, 1500]`.  With requested MTU 1500 and both endpoint interface MTUs
1400 on an encrypted (`psk`) tunnel, that formula gives 1250, but the
source places the clamped requested value 1500: the min with the interface
MTUs only feeds the TCP MSS clamp. -/
theorem prepareTunnelMtu_claim_counterexample :
    (prepareTunnelMtu "psk" 1400 1400 1500 1500 40 "yes").loopbackMtuA = 1500 ∧
    (prepareTunnelMtu "psk" 1400 1400 1500 1500 40 "yes").loopbackMtuB = 1500 ∧
    specEffectiveMtu "psk" 1400 1400 1500 = 1250 ∧ (1500 : Int) ≠ 1250 := by
  refine ⟨by decide, by decide, by decide, by decide⟩

/-- C5 amended: the MTU placed in both endpoints' loopback configuration
is the requested-or-default value clamped to `[500, 1500]` — the requested
MTU when given, else the positive global default, else the smaller
endpoint interface MTU minus the overhead (150 encrypted, 0 for `none`);
in particular, when an MTU was requested the placed value is independent
of the endpoint interface MTUs.  The spec's min-with-interface-MTUs
quantity is used only as the basis of the TCP MSS clamp. -/
theorem prepareTunnelMtu_amended (enc : String) (ia ib req g hdr : Int) (mc : String) :
    ((prepareTunnelMtu enc ia ib req g hdr mc).loopbackMtuA =
      min (max (if req = 0 then (if g > 0 then g else
          min (if ia = 0 then 1500 else ia) (if ib = 0 then 1500 else ib) -
            (if enc = "none" then 0 else 150)) else req) 500) 1500) ∧
    ((prepareTunnelMtu enc ia ib req g hdr mc).loopbackMtuB =
      (prepareTunnelMtu enc ia ib req g hdr mc).loopbackMtuA) ∧
    (req ≠ 0 →
      (prepareTunnelMtu enc ia ib req g hdr mc).loopbackMtuA = min (max req 500) 1500) ∧
    (mc ≠ "no" →
      (prepareTunnelMtu enc ia ib req g hdr mc).tcpMssClampA =
        some (min ((prepareTunnelMtu enc ia ib req g hdr mc).loopbackMtuA)
          (min (if ia = 0 then 1500 else ia) (if ib = 0 then 1500 else ib) -
            (if enc = "none" then 0 else 150)) - hdr) ∧
      (prepareTunnelMtu enc ia ib req g hdr mc).tcpMssClampB =
        (prepareTunnelMtu enc ia ib req g hdr mc).tcpMssClampA) := by
  refine ⟨rfl, rfl, fun hreq => ?_, fun hmc => ⟨?_, ?_⟩⟩
  · simp [prepareTunnelMtu, hreq]
  · simp [prepareTunnelMtu, hmc]
  · simp [prepareTunnelMtu, hmc]

/-- Witness for C5 amended: requested MTU 1500 with interface MTUs 1400 on
a `psk` tunnel places 1500 and clamps MSS from `min(1500, 1250) - 40`. -/
theorem prepareTunnelMtu_amended_witness :
    (prepareTunnelMtu "psk" 1400 1400 1500 1500 40 "yes").loopbackMtuA = 1500 ∧
    (prepareTunnelMtu "psk" 1400 1400 1500 1500 40 "yes").tcpMssClampA = some 1210 := by
  have h := prepareTunnelMtu_amended "psk" 1400 1400 1500 1500 40 "yes"
  constructor
  · rw [h.2.2.1 (by decide)]; decide
  · rw [(h.2.2.2 (by decide)).1, h.2.2.1 (by decide)]; decide

/-- C6: PSK key generation is idempotent per tunnel — the `psk` branch of
`prepareTunnelAddJob` generates and persists the four keys only when the
record holds none, and a second build (with different fresh randomness)
returns the identical stored keys and identical security-association
blocks. -/
theorem buildPskParams_idempotent (gen1 gen2 : TunnelKeys4) (majB sa1 sa2 : Nat)
    (stored : Option TunnelKeys4) :
    buildPskParams gen2 majB sa1 sa2 (buildPskParams gen1 majB sa1 sa2 stored).1 =
      buildPskParams gen1 majB sa1 sa2 stored ∧
    (∀ k, (buildPskParams gen1 majB sa1 sa2 (some k)).1 = some k) ∧
    (buildPskParams gen1 majB sa1 sa2 none).1 = some gen1 := by
  refine ⟨?_, fun k => rfl, rfl⟩
  cases stored <;> rfl

/-- C7: the sync state transition — equal hashes yield `synced` (and the
`synced` update also resets `autoSync` to `on` and `trials` to 0); unequal
hashes yield `syncing` when `autoSync` is `on` and `not-synced`
otherwise. -/
theorem syncState_transition (mgmtHash deviceHash autoSync : String) (r : SyncRec) :
    (mgmtHash = deviceHash →
      calculateNewSyncState mgmtHash deviceHash autoSync = "synced" ∧
        applySyncStateUpdate r "synced" =
          { state := "synced", autoSync := "on", trials := 0 }) ∧
    (mgmtHash ≠ deviceHash → autoSync = "on" →
      calculateNewSyncState mgmtHash deviceHash autoSync = "syncing") ∧
    (mgmtHash ≠ deviceHash → autoSync ≠ "on" →
      calculateNewSyncState mgmtHash deviceHash autoSync = "not-synced") := by
  refine ⟨fun h => ⟨by simp [calculateNewSyncState, h], rfl⟩,
    fun h h2 => by simp [calculateNewSyncState, h, h2],
    fun h h2 => by simp [calculateNewSyncState, h, h2]⟩

/-- Witness for C7: concrete hash comparisons drive the three
transitions, and the `synced` update resets `autoSync` and `trials`. -/
theorem syncState_transition_witness :
    calculateNewSyncState "abc" "abc" "off" = "synced" ∧
    applySyncStateUpdate { state := "syncing", autoSync := "off", trials := 2 } "synced" =
      { state := "synced", autoSync := "on", trials := 0 } ∧
    calculateNewSyncState "abc" "xyz" "on" = "syncing" ∧
    calculateNewSyncState "abc" "xyz" "off" = "not-synced" := by
  refine ⟨((syncState_transition "abc" "abc" "off"
      { state := "syncing", autoSync := "off", trials := 2 }).1 rfl).1,
    ((syncState_transition "abc" "abc" "off"
      { state := "syncing", autoSync := "off", trials := 2 }).1 rfl).2,
    (syncState_transition "abc" "xyz" "on" { state := "", autoSync := "", trials := 0 }).2.1
      (by decide) rfl,
    (syncState_transition "abc" "xyz" "off" { state := "", autoSync := "", trials := 0 }).2.2
      (by decide) (by decide)⟩

/-- C8: deleting a tunnel referenced by a static route — directly via a
gateway equal to one of the derived loopback addresses, or through a
conditional route's `via.tunnelId` — is rejected with one of the two
remove-the-route-first messages, and no deactivation update is recorded,
so the tunnel stays active. -/
theorem delTunnel_referential_guard (ip1 ip2 : String) (t : DelTunnelInput)
    (ops : List TunnelUpdateOp) (s : StaticRoute) (hs : s ∈ t.routesA ++ t.routesB)
    (href : s.gateway = ip1 ∨ s.gateway = ip2 ∨
      ∃ c ∈ s.conditionTunnelIds, c = some t.num) :
    (delTunnelModel ip1 ip2 t ops).1 = ops ∧
      ∃ m, (delTunnelModel ip1 ip2 t ops).2 = some m ∧
        (m = staticRouteMsg ∨ m = conditionalRouteMsg) := by
  obtain ⟨m, hm, hshape⟩ := findSome?_routeBlocks (t.routesA ++ t.routesB)
    ⟨s, hs, routeBlocks_isSome_of_ref href⟩
  unfold delTunnelModel
  rw [hm]
  exact ⟨rfl, m, rfl, hshape⟩

/-- Witness for C8: a static route whose gateway is the first loopback
address blocks the deletion of tunnel 5; the update list stays empty. -/
theorem delTunnel_referential_guard_witness :
    (delTunnelModel "10.100.0.10" "10.100.0.11"
      { tunnelId := 42, num := 5, isPending := false
        routesA := [{ gateway := "10.100.0.10", conditionTunnelIds := [] }], routesB := [] }
      []).1 = [] ∧
    (delTunnelModel "10.100.0.10" "10.100.0.11"
      { tunnelId := 42, num := 5, isPending := false
        routesA := [{ gateway := "10.100.0.10", conditionTunnelIds := [] }], routesB := [] }
      []).2 = some staticRouteMsg := by
  have h := delTunnel_referential_guard "10.100.0.10" "10.100.0.11"
    { tunnelId := 42, num := 5, isPending := false
      routesA := [{ gateway := "10.100.0.10", conditionTunnelIds := [] }], routesB := [] }
    [] { gateway := "10.100.0.10", conditionTunnelIds := [] }
    (by decide) (Or.inl rfl)
  exact ⟨h.1, by decide⟩

/-- C10: deleting a pending tunnel is not atomic with its reported error —
`delTunnel` records the deactivation update (isActive false, both
confirmation flags cleared, tunnel keys nulled) and only afterwards throws
`'Tunnel was in pending state'`. -/
theorem delTunnel_pending_deactivates (ip1 ip2 : String) (t : DelTunnelInput)
    (ops : List TunnelUpdateOp)
    (hnoref : ∀ s ∈ t.routesA ++ t.routesB, routeBlocks ip1 ip2 t.num s = none)
    (hp : t.isPending = true) :
    delTunnelModel ip1 ip2 t ops =
      (ops ++ [deactivationOp t.tunnelId], some "Tunnel was in pending state") ∧
    (deactivationOp t.tunnelId).isActive = false ∧
    (deactivationOp t.tunnelId).deviceAconf = false ∧
    (deactivationOp t.tunnelId).deviceBconf = false ∧
    (deactivationOp t.tunnelId).tunnelKeys = none := by
  have hnone := findSome?_none_of_all_none (routeBlocks ip1 ip2 t.num)
    (t.routesA ++ t.routesB) hnoref
  unfold delTunnelModel
  rw [hnone]
  simp [hp, deactivationOp]

/-- Witness for C10: deleting a pending tunnel with no dependent routes
both records its deactivation and reports the pending error. -/
theorem delTunnel_pending_deactivates_witness :
    delTunnelModel "10.100.0.10" "10.100.0.11"
      { tunnelId := 42, num := 5, isPending := true, routesA := [], routesB := [] } [] =
      ([deactivationOp 42], some "Tunnel was in pending state") := by
  have h := delTunnel_pending_deactivates "10.100.0.10" "10.100.0.11"
    { tunnelId := 42, num := 5, isPending := true, routesA := [], routesB := [] } []
    (by intro s hs; simp at hs) rfl
  exact h.1.trans (by simp)

/-! ## C9 lemmas: completion bulk update -/

lemma confRowLe_refl (r : ConfRow) : confRowLe r r :=
  ⟨rfl, rfl, id, id⟩

lemma confRowLe_trans {a b c : ConfRow} (h1 : confRowLe a b) (h2 : confRowLe b c) :
    confRowLe a c :=
  ⟨h1.1.trans h2.1, h1.2.1.trans h2.2.1, fun h => h2.2.2.1 (h1.2.2.1 h),
    fun h => h2.2.2.2 (h1.2.2.2 h)⟩

lemma confRowLe_setConf (r : ConfRow) (t : ConfTarget) : confRowLe r (r.setConf t) := by
  cases t <;> exact ⟨rfl, rfl, by simp [ConfRow.setConf], by simp [ConfRow.setConf]⟩

lemma getConf_setConf_self (r : ConfRow) (t : ConfTarget) :
    (r.setConf t).getConf t = true := by
  cases t <;> rfl

lemma setConf_key (r : ConfRow) (t : ConfTarget) : (r.setConf t).key = r.key := by
  cases t <;> rfl

/-- Raising flags is monotone on each targeted flag. -/
lemma getConf_le {r s : ConfRow} (hle : confRowLe r s) (tg : ConfTarget) :
    r.getConf tg = true → s.getConf tg = true := by
  cases tg
  · exact hle.2.2.1
  · exact hle.2.2.2

/-- A `confRowLe`-smaller row matches the completion filter whenever the
larger one does. -/
lemma matchesConfFilter_of_le {t : ConfTriple} {r s : ConfRow} (hle : confRowLe r s)
    (hm : matchesConfFilter t s) : matchesConfFilter t r := by
  refine ⟨hle.1.trans hm.1, hle.2.1.trans hm.2.1, ?_⟩
  cases hv : r.getConf t.target
  · rfl
  · exfalso
    have h2 := getConf_le hle t.target hv
    rw [hm.2.2] at h2
    exact Bool.false_ne_true h2

/-- `updateOne` preserves the key sequence of the collection. -/
lemma updateOneConf_keys : ∀ (db : List ConfRow) (t : ConfTriple),
    (updateOneConf db t).map ConfRow.key = db.map ConfRow.key
  | [], _ => rfl
  | r :: rs, t => by
    unfold updateOneConf
    split_ifs with h
    · simp [setConf_key]
    · simp [updateOneConf_keys rs t]

/-- `updateOne` only raises confirmation flags. -/
lemma updateOneConf_le : ∀ (db : List ConfRow) (t : ConfTriple),
    List.Forall₂ confRowLe db (updateOneConf db t)
  | [], _ => List.Forall₂.nil
  | r :: rs, t => by
    unfold updateOneConf
    split_ifs with h
    · exact List.Forall₂.cons (confRowLe_setConf r t.target)
        (List.forall₂_same.mpr fun x _ => confRowLe_refl x)
    · exact List.Forall₂.cons (confRowLe_refl r) (updateOneConf_le rs t)

lemma forall₂_confRowLe_trans : ∀ {a b c : List ConfRow},
    List.Forall₂ confRowLe a b → List.Forall₂ confRowLe b c → List.Forall₂ confRowLe a c
  | _, _, _, List.Forall₂.nil, List.Forall₂.nil => List.Forall₂.nil
  | _, _, _, List.Forall₂.cons h1 t1, List.Forall₂.cons h2 t2 =>
    List.Forall₂.cons (confRowLe_trans h1 h2) (forall₂_confRowLe_trans t1 t2)

/-- The whole completion only raises confirmation flags (monotonicity):
a flag that is already `true` is never rewritten to `false`. -/
lemma completeTunnelAddModel_le : ∀ (ts : List ConfTriple) (db : List ConfRow),
    List.Forall₂ confRowLe db (completeTunnelAddModel ts db)
  | [], _ => List.forall₂_same.mpr fun x _ => confRowLe_refl x
  | t :: ts, db =>
    forall₂_confRowLe_trans (updateOneConf_le db t)
      (completeTunnelAddModel_le ts (updateOneConf db t))

/-- After `updateOne` runs on a key-unique collection, no row matches the
triple's filter any more. -/
lemma updateOneConf_nomatch : ∀ (db : List ConfRow) (t : ConfTriple),
    (db.map ConfRow.key).Nodup →
    ∀ r ∈ updateOneConf db t, ¬ matchesConfFilter t r
  | [], t, _ => by
    intro r hr
    simp [updateOneConf] at hr
  | r0 :: rs, t, hnd => by
    intro r hr
    have hnd2 := hnd
    rw [List.map_cons, List.nodup_cons] at hnd2
    unfold updateOneConf at hr
    split_ifs at hr with h
    · rcases List.mem_cons.mp hr with rfl | hr
      · intro hm
        have hset := getConf_setConf_self r0 t.target
        rw [hm.2.2] at hset
        exact Bool.false_ne_true hset
      · intro hm
        have hkey : r.key = (t.org, t.num) := by
          simp [ConfRow.key, hm.1, hm.2.1]
        have hkey0 : r0.key = (t.org, t.num) := by
          simp [ConfRow.key, h.1, h.2.1]
        exact hnd2.1 (by rw [hkey0, ← hkey]; exact List.mem_map_of_mem ConfRow.key hr)
    · rcases List.mem_cons.mp hr with rfl | hr
      · exact h
      · exact updateOneConf_nomatch rs t hnd2.2 r hr

/-- `updateOne` is the identity when no row matches. -/
lemma updateOneConf_id_of_nomatch : ∀ (db : List ConfRow) (t : ConfTriple),
    (∀ r ∈ db, ¬ matchesConfFilter t r) → updateOneConf db t = db
  | [], _, _ => rfl
  | r :: rs, t, h => by
    unfold updateOneConf
    rw [if_neg (h r (List.mem_cons_self r rs))]
    rw [updateOneConf_id_of_nomatch rs t (fun x hx => h x (List.mem_cons_of_mem r hx))]

/-- Flag-raising preserves the no-match property. -/
lemma nomatch_mono {t : ConfTriple} {a b : List ConfRow}
    (hab : List.Forall₂ confRowLe a b) (h : ∀ r ∈ a, ¬ matchesConfFilter t r) :
    ∀ r ∈ b, ¬ matchesConfFilter t r := by
  induction hab with
  | nil => intro r hr; simp at hr
  | cons hxy htail ih =>
    intro r hr
    rcases List.mem_cons.mp hr with rfl | hr
    · exact fun hm => h _ (List.mem_cons_self _ _) (matchesConfFilter_of_le hxy hm)
    · exact ih (fun x hx => h x (List.mem_cons_of_mem _ hx)) r hr

/-- After a full completion run on a key-unique collection, none of its
triples matches any row. -/
lemma completeTunnelAddModel_nomatch :
    ∀ (ts : List ConfTriple) (db : List ConfRow), (db.map ConfRow.key).Nodup →
      ∀ t ∈ ts, ∀ r ∈ completeTunnelAddModel ts db, ¬ matchesConfFilter t r
  | [], db, _ => by
    intro t ht
    simp at ht
  | t0 :: ts, db, hnd => by
    intro t ht r hr
    have hstep : completeTunnelAddModel (t0 :: ts) db =
        completeTunnelAddModel ts (updateOneConf db t0) := rfl
    have hnd2 : ((updateOneConf db t0).map ConfRow.key).Nodup := by
      rw [updateOneConf_keys]; exact hnd
    rcases List.mem_cons.mp ht with rfl | ht
    · have h0 := updateOneConf_nomatch db t hnd
      have hle := completeTunnelAddModel_le ts (updateOneConf db t)
      rw [hstep] at hr
      exact nomatch_mono hle h0 r hr
    · rw [hstep] at hr
      exact completeTunnelAddModel_nomatch ts (updateOneConf db t0) hnd2 t ht r hr

/-- A completion run is the identity when none of its triples matches. -/
lemma completeTunnelAddModel_id_of_nomatch :
    ∀ (ts : List ConfTriple) (db : List ConfRow),
      (∀ t ∈ ts, ∀ r ∈ db, ¬ matchesConfFilter t r) →
      completeTunnelAddModel ts db = db
  | [], _, _ => rfl
  | t0 :: ts, db, h => by
    have h0 : updateOneConf db t0 = db :=
      updateOneConf_id_of_nomatch db t0 (h t0 (List.mem_cons_self t0 ts))
    have hstep : completeTunnelAddModel (t0 :: ts) db =
        completeTunnelAddModel ts (updateOneConf db t0) := rfl
    rw [hstep, h0]
    exact completeTunnelAddModel_id_of_nomatch ts db
      (fun t ht => h t (List.mem_cons_of_mem t0 ht))

/-- C9: tunnel-confirmation completion is monotonic and idempotent — the
bulk update built by `completeTunnelAdd` only raises confirmation flags
(its filter matches only rows whose target flag is still `false`), and on
a collection whose `(org, num)` keys are unique — the invariant of the
`tunnels` collection, which is upserted by `(org, num)` — running the same
completion twice leaves the same state as running it once. -/
theorem completeTunnelAdd_monotone_idempotent (ts : List ConfTriple) (db : List ConfRow) :
    List.Forall₂ confRowLe db (completeTunnelAddModel ts db) ∧
    ((db.map ConfRow.key).Nodup →
      completeTunnelAddModel ts (completeTunnelAddModel ts db) =
        completeTunnelAddModel ts db) := by
  refine ⟨completeTunnelAddModel_le ts db, fun hnd => ?_⟩
  exact completeTunnelAddModel_id_of_nomatch ts (completeTunnelAddModel ts db)
    (fun t ht => completeTunnelAddModel_nomatch ts db hnd t ht)

/-- Witness for C9: a concrete one-triple completion on a two-row
collection flips only the targeted `deviceAconf` flag and is idempotent. -/
theorem completeTunnelAdd_monotone_idempotent_witness :
    completeTunnelAddModel [{ org := 1, num := 2, target := .deviceAconf }]
      [{ org := 1, num := 2, confA := false, confB := true },
        { org := 1, num := 3, confA := false, confB := false }] =
      [{ org := 1, num := 2, confA := true, confB := true },
        { org := 1, num := 3, confA := false, confB := false }] ∧
    completeTunnelAddModel [{ org := 1, num := 2, target := .deviceAconf }]
      (completeTunnelAddModel [{ org := 1, num := 2, target := .deviceAconf }]
        [{ org := 1, num := 2, confA := false, confB := true },
          { org := 1, num := 3, confA := false, confB := false }]) =
      completeTunnelAddModel [{ org := 1, num := 2, target := .deviceAconf }]
        [{ org := 1, num := 2, confA := false, confB := true },
          { org := 1, num := 3, confA := false, confB := false }] := by
  constructor
  · decide
  · exact (completeTunnelAdd_monotone_idempotent
      [{ org := 1, num := 2, target := .deviceAconf }]
      [{ org := 1, num := 2, confA := false, confB := true },
        { org := 1, num := 3, confA := false, confB := false }]).2 (by decide)

/-! ## C3 lemmas: hub-and-spoke shape of the planner -/

lemma addReason_intents (st : PlanState) (s : String) :
    (st.addReason s).intents = st.intents := rfl

lemma addDeviceReason_intents (st : PlanState) (d : Nat) (s : String) :
    (st.addDeviceReason d s).intents = st.intents := rfl

lemma bump_intents (st : PlanState) (d : Nat) :
    (st.bump d).intents = st.intents := rfl

lemma pushIntent_intents (st : PlanState) (i : TunnelIntent) :
    (st.pushIntent i).intents = st.intents ++ [i] := rfl

/-- Every intent `emitChain` adds connects the two devices it was called
for. -/
lemma emitChain_intents (dA dB : Device) (ifcA ifcB : AnnotatedIfc)
    (label : Option String) (keyLabel : String) (bug : Bool) (st : PlanState) :
    ∀ i ∈ (emitChain dA dB ifcA ifcB label keyLabel bug st).intents,
      i ∈ st.intents ∨ (i.deviceA = dA.id ∧ i.deviceB = dB.id) := by
  intro i hi
  unfold emitChain at hi
  split_ifs at hi <;>
    simp only [pushIntent_intents, bump_intents, addDeviceReason_intents, addReason_intents,
      List.mem_append, List.mem_singleton] at hi
  all_goals
    first
      | exact Or.inl hi
      | (rcases hi with hi | rfl
         · exact Or.inl hi
         · exact Or.inr ⟨rfl, rfl⟩)

/-- Every intent `processLabel` adds connects the two devices it was
called for. -/
lemma processLabel_intents (specified : List String) (createForAll : Bool)
    (dA dB : Device) (ifcA ifcB : AnnotatedIfc) (acc : PlanState × Bool) (label : String) :
    ∀ i ∈ (processLabel specified createForAll dA dB ifcA ifcB acc label).1.intents,
      i ∈ acc.1.intents ∨ (i.deviceA = dA.id ∧ i.deviceB = dB.id) := by
  intro i hi
  unfold processLabel at hi
  split_ifs at hi with h
  · exact Or.inl hi
  · exact emitChain_intents dA dB ifcA ifcB (some label) label true acc.1 i hi

/-- Intent provenance is preserved by folds over `PlanState × Bool`
accumulators. -/
lemma foldl_planb_intents {α : Type} (Q : TunnelIntent → Prop)
    (f : PlanState × Bool → α → PlanState × Bool) :
    ∀ (l : List α) (acc : PlanState × Bool),
      (∀ acc2 a, ∀ i ∈ (f acc2 a).1.intents, i ∈ acc2.1.intents ∨ Q i) →
      ∀ i ∈ (l.foldl f acc).1.intents, i ∈ acc.1.intents ∨ Q i
  | [], acc, _ => fun i hi => Or.inl hi
  | a :: l, acc, hf => by
    intro i hi
    have hrest := foldl_planb_intents Q f l (f acc a) hf i hi
    rcases hrest with hstep | hq
    · exact hf acc a i hstep
    · exact Or.inr hq

/-- Every intent `processCombo` adds connects the two devices it was
called for. -/
lemma processCombo_intents (specified : List String) (createForAll : Bool)
    (dA dB : Device) (acc : PlanState × Bool) (ifcs : AnnotatedIfc × AnnotatedIfc) :
    ∀ i ∈ (processCombo specified createForAll dA dB acc ifcs).1.intents,
      i ∈ acc.1.intents ∨ (i.deviceA = dA.id ∧ i.deviceB = dB.id) := by
  intro i hi
  simp only [processCombo] at hi
  split_ifs at hi
  · exact emitChain_intents dA dB ifcs.1 ifcs.2 none "" false acc.1 i hi
  all_goals
    first
      | (simp only [addDeviceReason_intents, addReason_intents] at hi; exact Or.inl hi)
      | exact foldl_planb_intents _ _ _ acc
          (fun acc2 lb => processLabel_intents specified createForAll dA dB ifcs.1 ifcs.2 acc2 lb)
          i hi

/-- Every intent `processPair` adds connects the two devices of the
pair. -/
lemma processPair_intents (ext : ExternalFns) (m : String) (specified : List String)
    (dA dB : Device) (st : PlanState) :
    ∀ i ∈ (processPair ext m specified dA dB st).intents,
      i ∈ st.intents ∨ (i.deviceA = dA.id ∧ i.deviceB = dB.id) := by
  intro i hi
  simp only [processPair] at hi
  split_ifs at hi
  all_goals
    first
      | exact Or.inl hi
      | (simp only [addDeviceReason_intents, addReason_intents] at hi; exact Or.inl hi)
      | exact foldl_planb_intents _ _ _ (st, false)
          (fun acc2 ifcs => processCombo_intents specified _ dA dB acc2 ifcs) i hi


/-- Intent provenance for folds over plain `PlanState` accumulators,
remembering which list element created each intent. -/
lemma foldl_plan_intents {α : Type} (Q : TunnelIntent → α → Prop)
    (f : PlanState → α → PlanState) :
    ∀ (l : List α) (st : PlanState),
      (∀ st2 a, a ∈ l → ∀ i ∈ (f st2 a).intents, i ∈ st2.intents ∨ Q i a) →
      ∀ i ∈ (l.foldl f st).intents, i ∈ st.intents ∨ ∃ a ∈ l, Q i a
  | [], st, _ => fun i hi => Or.inl hi
  | a :: l, st, hf => by
    intro i hi
    have hrest := foldl_plan_intents Q f l (f st a)
      (fun st2 x hx => hf st2 x (List.mem_cons_of_mem a hx)) i hi
    rcases hrest with hstep | ⟨x, hx, hq⟩
    · rcases hf st a (List.mem_cons_self a l) i hstep with hin | hq
      · exact Or.inl hin
      · exact Or.inr ⟨a, List.mem_cons_self a l, hq⟩
    · exact Or.inr ⟨x, List.mem_cons_of_mem a hx, hq⟩

/-- In hub-and-spoke mode the pair enumeration is the hub index crossed
with every other index below `len`. -/
lemma pairIndices_hub_eq (hubIdx len : Nat) :
    pairIndices true hubIdx len =
      ((List.range' 0 len).filter (fun idxB => idxB ≠ hubIdx)).map
        (fun idxB => (hubIdx, idxB)) := by
  simp [pairIndices, Nat.add_sub_cancel_left, List.range'_one]

/-- In hub-and-spoke mode the enumerated index pairs are exactly
`(hubIdx, b)` with `b ≠ hubIdx` and `b < devicesLen`. -/
lemma pairIndices_hub_mem {hubIdx len a b : Nat}
    (h : (a, b) ∈ pairIndices true hubIdx len) : a = hubIdx ∧ b ≠ hubIdx ∧ b < len := by
  rw [pairIndices_hub_eq] at h
  simp only [List.mem_map, List.mem_filter, List.mem_range'_1, decide_eq_true_eq] at h
  obtain ⟨x, ⟨⟨hx0, hxlen⟩, hxne⟩, heq⟩ := h
  injection heq with h1 h2
  subst h1; subst h2
  exact ⟨rfl, hxne, by omega⟩

/-- In hub-and-spoke mode with an in-range hub index, exactly
`devicesLen - 1` pairs are enumerated. -/
lemma pairIndices_hub_length {hubIdx len : Nat} (h : hubIdx < len) :
    (pairIndices true hubIdx len).length = len - 1 := by
  rw [pairIndices_hub_eq, List.length_map]
  have hnd : (List.range' 0 len).Nodup := by
    rw [← List.range_eq_range' len]
    exact List.nodup_range len
  have hfe : (List.range' 0 len).filter (fun idxB => idxB ≠ hubIdx) =
      (List.range' 0 len).erase hubIdx := by
    rw [hnd.erase_eq_filter hubIdx]
    apply List.filter_congr
    intro x _
    rw [Bool.eq_iff_iff]; simp
  rw [hfe, List.length_erase_of_mem, ← List.range_eq_range' len, List.length_range]
  rw [← List.range_eq_range' len]
  exact List.mem_range.mpr h

/-- C3: in hub-and-spoke topology the planner emits tunnel-creation
intents only for (hub, spoke) pairs — every emitted intent has the hub
device as its first endpoint and a different device as its second — and
with 4 selected devices the pair enumeration yields exactly 3 pairs. -/
theorem handleTunnels_hubAndSpoke_shape (ext : ExternalFns) (encryptionMethod : String)
    (devices : List Device) (specified : List String) (hubIdx : Nat) (st0 st : PlanState)
    (hseed : st0.intents = [])
    (hhub : hubIdx < devices.length)
    (hnodup : (devices.map Device.id).Nodup)
    (hrun : handleTunnelsModel ext encryptionMethod devices specified true hubIdx
      st0 = .ok st) :
    (∀ i ∈ st.intents,
      i.deviceA = (devices.getD hubIdx defaultDevice).id ∧
      i.deviceB ≠ (devices.getD hubIdx defaultDevice).id) ∧
    (devices.length = 4 → (pairIndices true hubIdx devices.length).length = 3) := by
  refine ⟨?_, fun h4 => by rw [pairIndices_hub_length hhub, h4]⟩
  intro i hi
  by_cases hm : encryptionMethod ∈ ["none", "ikev2", "psk"]
  case neg =>
    rw [handleTunnelsModel, if_pos hm] at hrun
    exact absurd hrun (by simp)
  rw [handleTunnelsModel, if_neg (fun hc => hc hm)] at hrun
  have hst := Except.ok.inj hrun
  rw [← hst] at hi
  have hprov := foldl_plan_intents
    (fun i p => i.deviceA = (devices.getD p.1 defaultDevice).id ∧
      i.deviceB = (devices.getD p.2 defaultDevice).id)
    (fun st2 p => processPair ext encryptionMethod specified
      (devices.getD p.1 defaultDevice) (devices.getD p.2 defaultDevice) st2)
    (pairIndices true hubIdx devices.length) st0
    (fun st2 p _ => processPair_intents ext encryptionMethod specified _ _ st2)
    i hi
  rcases hprov with hempty | ⟨⟨p1, p2⟩, hp, hA, hB⟩
  · rw [hseed] at hempty
    simp at hempty
  · obtain ⟨hp1, hp2ne, hp2lt⟩ := pairIndices_hub_mem hp
    subst hp1
    have hgB : devices.getD p2 defaultDevice = devices[p2] :=
      List.getD_eq_getElem devices defaultDevice hp2lt
    have hgH : devices.getD p1 defaultDevice = devices[p1] :=
      List.getD_eq_getElem devices defaultDevice hhub
    refine ⟨hA, ?_⟩
    rw [hB, hgB, hgH]
    intro hcontra
    have hlen2 : p2 < (devices.map Device.id).length := by simpa using hp2lt
    have hlenH : p1 < (devices.map Device.id).length := by simpa using hhub
    have hmB : (devices.map Device.id)[p2] = devices[p2].id := List.getElem_map Device.id
    have hmH : (devices.map Device.id)[p1] = devices[p1].id := List.getElem_map Device.id
    have hinj : p2 = p1 := hnodup.getElem_inj_iff.mp (by rw [hmB, hmH]; exact hcontra)
    exact hp2ne hinj

/-- Witness for C3: in the concrete 4-device hub-and-spoke run the first
emitted intent connects the hub (device id 20) to a spoke, and the pair
enumeration has exactly 3 pairs. -/
theorem handleTunnels_hubAndSpoke_shape_witness :
    ({ label := none, deviceA := 20, deviceB := 10, ifcA := 21, ifcB := 11 } :
        TunnelIntent).deviceA = (devsHub.getD 1 defaultDevice).id ∧
    ({ label := none, deviceA := 20, deviceB := 10, ifcA := 21, ifcB := 11 } :
        TunnelIntent).deviceB ≠ (devsHub.getD 1 defaultDevice).id ∧
    (pairIndices true 1 devsHub.length).length = 3 := by
  have h := handleTunnels_hubAndSpoke_shape extTrivial "psk" devsHub [] 1 emptyPlanState
    hubRunState rfl (by decide) (by decide) rfl
  have hmem : ({ label := none, deviceA := 20, deviceB := 10, ifcA := 21, ifcB := 11 } :
      TunnelIntent) ∈ hubRunState.intents := by decide
  exact ⟨(h.1 _ hmem).1, (h.1 _ hmem).2, h.2 (by decide)⟩

/-- C4: the claim says a capacity-exceeded combination is skipped without
incrementing either counter, without aborting the batch, and with the
reason recorded on the device that exceeded the limit only.  The skip and
the non-increment hold, but in the labelled path (tunnels.js lines
327-333) the source attaches the reason to `tunnelsJobs[deviceA._id]`
when device B is the one over the limit: with device 2 at 8000 tunnels,
the per-device reason lands on device 1 and device 2's job records
nothing.  The unlabelled path (lines 256-270, second conjunct) attaches
the same reason to device 2, as the claim demands. -/
theorem capacity_reason_recorded_on_wrong_device :
    handleTunnelsModel extTrivial "psk" [devCapA, devCapB] ["L1"] false 0 capSeedState =
      .ok { tunnelsPerDevice := [(2, MAX_TUNNELS_PER_DEVICE)], tunnelExists := []
            reasons := [capacityGlobalMsg]
            deviceReasons := [(1, capacityDeviceMsg)], intents := [] } ∧
    handleTunnelsModel extTrivial "psk"
        [mkWanDevice 1 10 "siteA", mkWanDevice 2 20 "siteB"] [] false 0 capSeedState =
      .ok { tunnelsPerDevice := [(2, MAX_TUNNELS_PER_DEVICE)], tunnelExists := []
            reasons := [capacityGlobalMsg]
            deviceReasons := [(2, capacityDeviceMsg)], intents := [] } := by
  constructor <;> rfl

end FlexiManage
